import Mathlib

/-!
Shallow embedding of `src/simple_search.py` (a Tk GUI around an Elasticsearch
index named "posts") and proofs of the specification claims about it.

Python scalar values that can appear in a CSV row are modelled by the
inductive type `Value`; floats are modelled by `PyFloat`, which separates the
special values NaN and ±Infinity (what `math.isnan` / `math.isinf` test) from
finite floats, modelled as rationals.  Fallible Python code (an uncaught
exception) is modelled with `Option` / `Except`.
-/

/-- Model of a Python float: a finite value, NaN, or one of the two
infinities.  `math.isnan` and `math.isinf` test the corresponding tags. -/
inductive PyFloat where
  | finite (q : ℚ)
  | nan
  | inf
  | ninf
deriving DecidableEq

/-- Model of `math.isnan` on a `PyFloat`. -/
def PyFloat.isNan : PyFloat → Bool
  | .nan => true
  | _ => false

/-- Model of `math.isinf` on a `PyFloat`. -/
def PyFloat.isInf : PyFloat → Bool
  | .inf => true
  | .ninf => true
  | _ => false

/-- Model of the Python scalar values flowing through the program:
`None`, a float, a string, or an int. -/
inductive Value where
  | none
  | float (f : PyFloat)
  | str (s : String)
  | int (n : Int)
deriving DecidableEq

/-- Model of Python `str.strip()`: drop whitespace characters from both ends
of the string (structurally, over the character list, so that proofs can
evaluate it). -/
def pyStrip (s : String) : String :=
  String.mk (((s.data.dropWhile Char.isWhitespace).reverse.dropWhile
      Char.isWhitespace).reverse)

/-- Model of Python `str.lower()` (ASCII case folding suffices for every
string this program compares after lowering). -/
def pyLower (s : String) : String :=
  String.mk (s.data.map Char.toLower)

/-- The placeholder strings of `clean_value` (line 31 of the source):
`["nan", "null", "none", "n/a", "na", ""]`. -/
def missing_strings : List String := ["nan", "null", "none", "n/a", "na", ""]

/-- Embedding of `clean_value` (src/simple_search.py lines 23-33):
`None` stays `None`; a float that is NaN or infinite becomes `None`; a string
whose stripped, lower-cased form is in `missing_strings` becomes `None`;
everything else is returned unchanged. -/
def clean_value : Value → Value
  | Value.none => Value.none
  | Value.float f => if f.isNan || f.isInf then Value.none else Value.float f
  | Value.str s =>
      if pyLower (pyStrip s) ∈ missing_strings then Value.none else Value.str s
  | Value.int n => Value.int n

/-- A row / document: an ordered mapping from column name to raw value
(Python dicts preserve insertion order, so a list of pairs). -/
abbrev Row : Type := List (String × Value)

/-- Embedding of `clean_document` (src/simple_search.py lines 36-37):
`{k: clean_value(v) for k, v in doc.items()}`. -/
def clean_document (doc : Row) : Row :=
  doc.map (fun kv => (kv.1, clean_value kv.2))

/-- Model of Python `int(s)` on a string: strip whitespace, accept an
optional sign followed by one or more decimal digits; anything else raises
`ValueError`, modelled as `Option.none`. -/
def pyInt (s : String) : Option Int :=
  let t := (pyStrip s).data
  let signed : Int × List Char :=
    match t with
    | '+' :: rest => (1, rest)
    | '-' :: rest => (-1, rest)
    | l => (1, l)
  match signed with
  | (sign, ds) =>
      if ds.isEmpty then Option.none
      else
        (ds.foldlM
          (fun (acc : Nat) (c : Char) =>
            if c.isDigit then some (acc * 10 + (c.toNat - 48)) else Option.none)
          0).map (fun n => sign * (n : Int))

/-- A bound of an Elasticsearch `range` clause: the numeric bounds carry
parsed integers, the date bounds carry the raw strings. -/
inductive RangeBound where
  | int (n : Int)
  | str (s : String)
deriving DecidableEq

/-- A clause of the boolean query body built by `search_posts`. -/
inductive Clause where
  | query_string (query : String) (fields : List String)
  | match_all
  | range (field : String) (gte : Option RangeBound) (lte : Option RangeBound)
deriving DecidableEq

/-- The search body assembled by `search_posts` (lines 125-138): result size,
the `bool.must` list, the `bool.filter` list, and the highlighted fields. -/
structure SearchBody where
  size : Nat
  must : List Clause
  filter : List Clause
  highlightFields : List String
deriving DecidableEq

/-- The index name (line 14 of the source). -/
def index_name : String := "posts"

/-- One side of the likes range (lines 111-114): an empty entry leaves the
bound absent; a non-empty entry must parse as an int or `int()` raises. -/
def parseBound (s : String) : Option (Option RangeBound) :=
  if s = "" then some Option.none
  else
    match pyInt s with
    | some n => some (some (RangeBound.int n))
    | Option.none => Option.none

/-- The numeric filter of `search_posts` (lines 109-115): if either likes
entry is non-empty, one `range` clause on `num_reactions` with `gte`/`lte`
from the supplied bounds; `Option.none` models the `ValueError` of `int()`. -/
def likesFilter (min_likes max_likes : String) : Option (List Clause) :=
  if min_likes = "" ∧ max_likes = "" then some []
  else
    match parseBound min_likes, parseBound max_likes with
    | some g, some l => some [Clause.range "num_reactions" g l]
    | _, _ => Option.none

/-- The date filter of `search_posts` (lines 117-123): if either date entry
is non-empty, one `range` clause on `status_published` carrying the raw
strings, unparsed. -/
def dateFilter (date_from date_to : String) : List Clause :=
  if date_from = "" ∧ date_to = "" then []
  else
    [Clause.range "status_published"
      (if date_from = "" then Option.none else some (RangeBound.str date_from))
      (if date_to = "" then Option.none else some (RangeBound.str date_to))]

/-- Embedding of `search_posts` (src/simple_search.py lines 97-140), up to
the point where the body is handed to `es.search`: builds the `must` list
from the stripped query, the filter list from the likes and date ranges (in
that order), and the body with `match_all` replacing an empty `must`.
`Option.none` models the uncaught `ValueError` of `int()` on a bad bound. -/
def search_posts (query min_likes max_likes date_from date_to : String) (k : Nat) :
    Option SearchBody :=
  let must : List Clause :=
    if pyStrip query = "" then []
    else [Clause.query_string query ["status_message"]]
  match likesFilter min_likes max_likes with
  | some lf =>
      some
        { size := k
          must := if must = [] then [Clause.match_all] else must
          filter := lf ++ dateFilter date_from date_to
          highlightFields := ["status_message"] }
  | Option.none => Option.none

/-- The more-like-this body assembled by `find_similar` (lines 147-157):
result size, the queried fields, the reference document, and the two
minimum-frequency thresholds.  The body carries no `min_score` key, modelled
by an `Option` field that `find_similar` leaves at `Option.none`. -/
structure MoreLikeThisBody where
  size : Nat
  fields : List String
  like : List (String × String)
  min_term_freq : Nat
  min_doc_freq : Nat
  min_score : Option ℚ
deriving DecidableEq

/-- Embedding of `find_similar` (src/simple_search.py lines 146-158), up to
the point where the body is handed to `es.search`. -/
def find_similar (post_id : String) (k : Nat) : MoreLikeThisBody :=
  { size := k
    fields := ["status_message"]
    like := [(index_name, post_id)]
    min_term_freq := 1
    min_doc_freq := 1
    min_score := Option.none }

/-- One staged action of a bulk request: the `_op_type`, `_index` and `_id`
fields of the dict built at lines 165-168. -/
structure BulkAction where
  op_type : String
  index : String
  id : String
deriving DecidableEq

/-- The delete actions staged by `delete_posts` (lines 165-168): one delete
action per identifier, against `index_name`. -/
def delete_actions (ids : List String) : List BulkAction :=
  ids.map (fun pid => { op_type := "delete", index := index_name, id := pid })

/-- Semantics of `helpers.bulk(es, actions, ignore_status=...)` restricted to
delete actions, over an index modelled as the set of existing document ids:
deleting an existing id removes it; deleting a missing id yields a per-item
404 status, which is an error unless 404 is in `ignore_status`. -/
def runBulkDelete (docs : Finset String) (actions : List BulkAction)
    (ignoreStatus : List Nat) : Except Nat (Finset String) :=
  match actions with
  | [] => Except.ok docs
  | a :: rest =>
      if a.id ∈ docs then runBulkDelete (docs.erase a.id) rest ignoreStatus
      else if 404 ∈ ignoreStatus then runBulkDelete docs rest ignoreStatus
      else Except.error 404

/-- Embedding of `delete_posts` (src/simple_search.py lines 164-170): stage
one delete action per id, submit them as one bulk call with
`ignore_status=[404]`, then refresh the index (the `Bool` in the result is
`true` exactly when the refresh was issued). -/
def delete_posts (ids : List String) (docs : Finset String) :
    Except Nat (Finset String × Bool) :=
  match runBulkDelete docs (delete_actions ids) [404] with
  | Except.ok st => Except.ok (st, true)
  | Except.error e => Except.error e

/-- A message shown to the user via `messagebox`: an error dialog or an info
dialog, with title and text. -/
inductive UIMessage where
  | error (title msg : String)
  | info (title msg : String)
deriving DecidableEq

/-- The observable outcome of one `import_posts` call: the dialog shown, the
documents submitted to the index by this call, and whether a refresh was
issued. -/
structure ImportResult where
  message : UIMessage
  submitted : List Row
  refreshed : Bool
deriving DecidableEq

/-- Embedding of `import_posts` (src/simple_search.py lines 73-91).  The two
inputs abstract the file system: whether `os.path.exists` succeeds, and the
outcome of `pd.read_csv` (a list of rows, or the exception text).  A missing
file or a parse failure shows an error dialog and returns with nothing
submitted and no refresh; otherwise every row is cleaned, submitted in bulk,
the index is refreshed, and the count is reported. -/
def import_posts (fileExists : Bool) (parsed : Except String (List Row)) :
    ImportResult :=
  if fileExists = false then
    { message := UIMessage.error "Error" "CSV file not found"
      submitted := []
      refreshed := false }
  else
    match parsed with
    | Except.error e =>
        { message := UIMessage.error "Error" ("Cannot read CSV:\n" ++ e)
          submitted := []
          refreshed := false }
    | Except.ok rows =>
        { message := UIMessage.info "Success"
            ("Imported " ++ toString (rows.map clean_document).length ++ " posts")
          submitted := rows.map clean_document
          refreshed := true }

/-- Floor of a rational, written with `Int.fdiv` so that it evaluates by
kernel reduction. -/
def floorQ (q : ℚ) : Int := q.num.fdiv (q.den : Int)

/-- Round-half-to-even on a rational, the tie-breaking rule of Python's
built-in `round`, computed on the numerator and denominator: with `f = ⌊q⌋`,
the fractional part `q - f` is compared against one half by comparing
`2 * (num - f * den)` with `den`. -/
def roundHalfEven (q : ℚ) : Int :=
  let f : Int := floorQ q
  let r2 : Int := 2 * (q.num - f * (q.den : Int))
  if r2 < (q.den : Int) then f
  else if (q.den : Int) < r2 then f + 1
  else if f % 2 = 0 then f else f + 1

/-- Model of Python `round(x, 2)` on a score modelled as a rational:
round half to even at the second decimal. -/
def round2 (q : ℚ) : ℚ := mkRat (roundHalfEven (mkRat (q.num * 100) q.den)) 100

/-- One hit of a search response, as the presenters read it: `_id`, `_score`,
the `status_message` entry of the `highlight` dict when present, and the
`status_message` field of `_source` when present. -/
structure Hit where
  id : String
  score : ℚ
  highlight : Option (List String)
  source_message : Option String
deriving DecidableEq

/-- Row rendered by `run_search` for one hit (lines 234-236):
`h.get("highlight", {}).get("status_message", [fallback])[0]` with fallback
`h["_source"].get("status_message", "")`, paired with the rounded score.
An empty highlight list would raise `IndexError`, modelled as
`Option.none`. -/
def searchRow (hit : Hit) : Option (ℚ × String) :=
  match (hit.highlight.getD [hit.source_message.getD ""]).head? with
  | some snippet => some (round2 hit.score, snippet)
  | Option.none => Option.none

/-- Row rendered by `similar_posts` for one hit (lines 254-256): the rounded
score and `h["_source"].get("status_message", "")[:300]` (the slice is over
characters, modelled on the character list). -/
def similarRow (hit : Hit) : ℚ × String :=
  (round2 hit.score, String.mk ((hit.source_message.getD "").data.take 300))

/-- A raw field value longer than 300 characters, used to separate the full
value from its truncation. -/
def longMsg : String := String.mk (List.replicate 301 'a')

/-- C1: `clean_value` returns the absent marker exactly when the input is
absent, a NaN/infinite float, or a string whose trimmed lower-cased form is a
placeholder; every other input is returned unchanged (the untrimmed string is
kept). -/
theorem clean_value_absent_iff (v : Value) :
    (clean_value v = Value.none ↔
      (v = Value.none ∨
       (∃ f, v = Value.float f ∧ (f.isNan || f.isInf) = true) ∨
       (∃ s, v = Value.str s ∧ pyLower (pyStrip s) ∈ missing_strings))) ∧
    ((v ≠ Value.none ∧
      (∀ f, v = Value.float f → (f.isNan || f.isInf) = false) ∧
      (∀ s, v = Value.str s → pyLower (pyStrip s) ∉ missing_strings)) →
     clean_value v = v) := by
  constructor
  · cases v with
    | none => simp [clean_value]
    | float f =>
        by_cases h : (f.isNan || f.isInf) = true
        · have h2 : f.isNan = true ∨ f.isInf = true := by simpa using h
          rcases h2 with h2 | h2 <;> simp [clean_value, h, h2]
        · have h2 : f.isNan = false ∧ f.isInf = false := by
            simpa [not_or] using h
          simp [clean_value, h, h2.1, h2.2]
    | str s =>
        by_cases h : pyLower (pyStrip s) ∈ missing_strings
        · simp [clean_value, h]
        · simp [clean_value, h]
    | int n => simp [clean_value]
  · rintro ⟨h0, hf, hs⟩
    cases v with
    | none => exact absurd rfl h0
    | float f =>
        have hb := hf f rfl
        simp [clean_value, hb]
    | str s =>
        have hb := hs s rfl
        simp [clean_value, hb]
    | int n => rfl

/-- Witness for C1 at the concrete input `" hi "`: not absent, not a float,
not a placeholder string, hence returned unchanged (untrimmed). -/
theorem clean_value_absent_iff_witness :
    clean_value (Value.str " hi ") = Value.str " hi " :=
  (clean_value_absent_iff (Value.str " hi ")).2
    ⟨by decide,
     fun f h => Value.noConfusion h,
     fun s h => by cases h; decide⟩

/-- C2: `clean_document` keeps exactly the key set of its input row and maps
each value through `clean_value`, independently of the other entries. -/
theorem clean_document_keys_and_values (doc : Row) :
    (clean_document doc).map Prod.fst = doc.map Prod.fst ∧
    (∀ k : String, (clean_document doc).lookup k = (doc.lookup k).map clean_value) := by
  constructor
  · induction doc with
    | nil => rfl
    | cons kv rest ih =>
        simp only [clean_document, List.map_cons] at *
        rw [ih]
  · intro k
    induction doc with
    | nil => rfl
    | cons kv rest ih =>
        cases h : (k == kv.1) with
        | true => simp [clean_document, List.lookup, h]
        | false =>
            simp only [clean_document, List.map_cons, List.lookup, h] at *
            exact ih

/-- C3: normalization is idempotent, both at the level of single values and
at the level of whole documents. -/
theorem clean_document_idempotent (doc : Row) :
    clean_document (clean_document doc) = clean_document doc ∧
    (∀ v : Value, clean_value (clean_value v) = clean_value v) := by
  have hval : ∀ v : Value, clean_value (clean_value v) = clean_value v := by
    intro v
    cases v with
    | none => rfl
    | float f =>
        by_cases h : (f.isNan || f.isInf) = true
        · simp [clean_value, h]
        · simp [clean_value, h]
    | str s =>
        by_cases h : pyLower (pyStrip s) ∈ missing_strings
        · simp [clean_value, h]
        · simp [clean_value, h]
    | int n => rfl
  refine ⟨?_, hval⟩
  induction doc with
  | nil => rfl
  | cons kv rest ih =>
      simp only [clean_document, List.map_cons] at *
      rw [hval]
      exact congrArg _ ih

/-- Characterization of a successful `parseBound`: an empty entry leaves the
bound absent, a non-empty entry yields the parsed integer. -/
theorem parseBound_eq_some (s : String) (g : Option RangeBound)
    (h : parseBound s = some g) :
    (s = "" → g = Option.none) ∧
    (s ≠ "" → ∃ n, pyInt s = some n ∧ g = some (RangeBound.int n)) := by
  constructor
  · intro hs
    subst hs
    simp [parseBound] at h
    exact h.symm
  · intro hs
    unfold parseBound at h
    rw [if_neg hs] at h
    cases hp : pyInt s with
    | none =>
        rw [hp] at h
        exact absurd h (by simp)
    | some n =>
        rw [hp] at h
        simp only [Option.some.injEq] at h
        exact ⟨n, rfl, h.symm⟩

/-- Characterization of a successful `likesFilter`: empty entries produce no
clause; otherwise exactly one range clause on `num_reactions`, with both
bounds obtained from `parseBound`. -/
theorem likesFilter_eq_some (mn mx : String) (lf : List Clause)
    (h : likesFilter mn mx = some lf) :
    (mn = "" ∧ mx = "" → lf = []) ∧
    ((mn ≠ "" ∨ mx ≠ "") →
      ∃ g l, lf = [Clause.range "num_reactions" g l] ∧
        parseBound mn = some g ∧ parseBound mx = some l) := by
  constructor
  · rintro ⟨h1, h2⟩
    subst h1
    subst h2
    simp [likesFilter] at h
    exact h
  · intro hne
    have hc : ¬(mn = "" ∧ mx = "") := by
      rcases hne with hne | hne
      · exact fun hx => hne hx.1
      · exact fun hx => hne hx.2
    unfold likesFilter at h
    rw [if_neg hc] at h
    cases hg : parseBound mn with
    | none =>
        rw [hg] at h
        exact absurd h (by simp)
    | some g =>
        cases hl2 : parseBound mx with
        | none =>
            rw [hg, hl2] at h
            exact absurd h (by simp)
        | some l =>
            rw [hg, hl2] at h
            simp only [Option.some.injEq] at h
            exact ⟨g, l, h.symm, rfl, rfl⟩

/-- Inversion of a successful `search_posts`: the likes filter succeeded and
the body has the shape assembled at lines 125-138 of the source. -/
theorem search_posts_eq_some (query mn mx df dt : String) (k : Nat)
    (body : SearchBody)
    (h : search_posts query mn mx df dt k = some body) :
    ∃ lf, likesFilter mn mx = some lf ∧
      body = { size := k
               must := if pyStrip query = "" then [Clause.match_all]
                       else [Clause.query_string query ["status_message"]]
               filter := lf ++ dateFilter df dt
               highlightFields := ["status_message"] } := by
  unfold search_posts at h
  cases hl : likesFilter mn mx with
  | none =>
      rw [hl] at h
      exact absurd h (by simp)
  | some lf =>
      rw [hl] at h
      simp only [Option.some.injEq] at h
      refine ⟨lf, rfl, ?_⟩
      by_cases hq : pyStrip query = ""
      · simp only [hq, if_pos rfl] at h ⊢
        simp at h
        exact h.symm
      · simp only [if_neg hq] at h ⊢
        simp at h
        exact h.symm

/-- C4: in every body produced by `search_posts`, the `must` list is the
single `query_string` clause on `status_message` carrying the free text when
the stripped query is non-empty, and the single `match_all` clause otherwise;
and with no bounds supplied the filter list is empty. -/
theorem search_posts_must_spec (query min_likes max_likes date_from date_to : String)
    (k : Nat) (body : SearchBody)
    (h : search_posts query min_likes max_likes date_from date_to k = some body) :
    (body.must = if pyStrip query = "" then [Clause.match_all]
                 else [Clause.query_string query ["status_message"]]) ∧
    (min_likes = "" → max_likes = "" → date_from = "" → date_to = "" →
      body.filter = []) := by
  obtain ⟨lf, hl, hb⟩ := search_posts_eq_some query min_likes max_likes
    date_from date_to k body h
  subst hb
  refine ⟨rfl, ?_⟩
  intro h1 h2 h3 h4
  subst h1
  subst h2
  subst h3
  subst h4
  simp [likesFilter] at hl
  subst hl
  simp [dateFilter]

/-- Witness for C4 at query `"hello"` with all bounds blank and `k = 10`. -/
theorem search_posts_must_spec_witness :
    ((SearchBody.mk 10 [Clause.query_string "hello" ["status_message"]] []
        ["status_message"]).must =
      if pyStrip "hello" = "" then [Clause.match_all]
      else [Clause.query_string "hello" ["status_message"]]) ∧
    ("" = "" → "" = "" → "" = "" → "" = "" →
      (SearchBody.mk 10 [Clause.query_string "hello" ["status_message"]] []
        ["status_message"]).filter = []) :=
  search_posts_must_spec "hello" "" "" "" "" 10
    (SearchBody.mk 10 [Clause.query_string "hello" ["status_message"]] []
      ["status_message"]) (by decide)

/-- C5: in every body produced by `search_posts`, the filter list is the
numeric part followed by the date part; each part is empty when its entries
are blank, and otherwise a single range clause on its field with exactly the
supplied bounds (numeric bounds parsed as integers, date bounds passed
through as raw strings). -/
theorem search_posts_filter_spec (query min_likes max_likes date_from date_to : String)
    (k : Nat) (body : SearchBody)
    (h : search_posts query min_likes max_likes date_from date_to k = some body) :
    ∃ numPart datePart : List Clause,
      body.filter = numPart ++ datePart ∧
      (min_likes = "" ∧ max_likes = "" → numPart = []) ∧
      ((min_likes ≠ "" ∨ max_likes ≠ "") →
        ∃ g l : Option RangeBound,
          numPart = [Clause.range "num_reactions" g l] ∧
          (min_likes = "" → g = Option.none) ∧
          (min_likes ≠ "" →
            ∃ n, pyInt min_likes = some n ∧ g = some (RangeBound.int n)) ∧
          (max_likes = "" → l = Option.none) ∧
          (max_likes ≠ "" →
            ∃ n, pyInt max_likes = some n ∧ l = some (RangeBound.int n))) ∧
      (date_from = "" ∧ date_to = "" → datePart = []) ∧
      ((date_from ≠ "" ∨ date_to ≠ "") →
        datePart = [Clause.range "status_published"
          (if date_from = "" then Option.none else some (RangeBound.str date_from))
          (if date_to = "" then Option.none else some (RangeBound.str date_to))]) := by
  obtain ⟨lf, hl, hb⟩ := search_posts_eq_some query min_likes max_likes
    date_from date_to k body h
  subst hb
  obtain ⟨hempty, hfull⟩ := likesFilter_eq_some min_likes max_likes lf hl
  refine ⟨lf, dateFilter date_from date_to, rfl, hempty, ?_, ?_, ?_⟩
  · intro hne
    obtain ⟨g, l, hlf, hg, hlx⟩ := hfull hne
    obtain ⟨hg1, hg2⟩ := parseBound_eq_some min_likes g hg
    obtain ⟨hl1, hl2⟩ := parseBound_eq_some max_likes l hlx
    exact ⟨g, l, hlf, hg1, hg2, hl1, hl2⟩
  · rintro ⟨h1, h2⟩
    subst h1
    subst h2
    simp [dateFilter]
  · intro hne
    have hc : ¬(date_from = "" ∧ date_to = "") := by
      rcases hne with hne | hne
      · exact fun hx => hne hx.1
      · exact fun hx => hne hx.2
    unfold dateFilter
    rw [if_neg hc]

/-- Witness for C5 at a numeric min of 10 and a from-date, with a blank
query and `k = 5`. -/
theorem search_posts_filter_spec_witness :
    ∃ numPart datePart : List Clause,
      (SearchBody.mk 5 [Clause.match_all]
          [Clause.range "num_reactions" (some (RangeBound.int 10)) Option.none,
           Clause.range "status_published" (some (RangeBound.str "2020-01-01"))
             Option.none]
          ["status_message"]).filter = numPart ++ datePart ∧
      ("10" = "" ∧ "" = "" → numPart = []) ∧
      (("10" ≠ "" ∨ "" ≠ "") →
        ∃ g l : Option RangeBound,
          numPart = [Clause.range "num_reactions" g l] ∧
          ("10" = "" → g = Option.none) ∧
          ("10" ≠ "" → ∃ n, pyInt "10" = some n ∧ g = some (RangeBound.int n)) ∧
          ("" = "" → l = Option.none) ∧
          ("" ≠ "" → ∃ n, pyInt "" = some n ∧ l = some (RangeBound.int n))) ∧
      ("2020-01-01" = "" ∧ "" = "" → datePart = []) ∧
      (("2020-01-01" ≠ "" ∨ "" ≠ "") →
        datePart = [Clause.range "status_published"
          (if "2020-01-01" = "" then Option.none
           else some (RangeBound.str "2020-01-01"))
          (if "" = "" then Option.none else some (RangeBound.str ""))]) :=
  search_posts_filter_spec "" "10" "" "2020-01-01" "" 5
    (SearchBody.mk 5 [Clause.match_all]
      [Clause.range "num_reactions" (some (RangeBound.int 10)) Option.none,
       Clause.range "status_published" (some (RangeBound.str "2020-01-01"))
         Option.none]
      ["status_message"]) (by decide)

/-- C10: a non-empty numeric bound that does not parse as an integer makes
`search_posts` raise during `int()` conversion, so no body is built; dually,
whenever a body is built every non-empty numeric bound parsed. -/
theorem search_posts_invalid_bound (query min_likes max_likes date_from date_to : String)
    (k : Nat) :
    (min_likes ≠ "" → pyInt min_likes = Option.none →
      search_posts query min_likes max_likes date_from date_to k = Option.none) ∧
    (∀ body, search_posts query min_likes max_likes date_from date_to k = some body →
      min_likes ≠ "" → ∃ n, pyInt min_likes = some n) := by
  constructor
  · intro hne hp
    have hlf : likesFilter min_likes max_likes = Option.none := by
      unfold likesFilter
      rw [if_neg (fun hx => hne hx.1)]
      have hpb : parseBound min_likes = Option.none := by
        unfold parseBound
        rw [if_neg hne, hp]
      rw [hpb]
    unfold search_posts
    rw [hlf]
  · intro body h hne
    obtain ⟨lf, hl, _⟩ := search_posts_eq_some query min_likes max_likes
      date_from date_to k body h
    obtain ⟨_, hfull⟩ := likesFilter_eq_some min_likes max_likes lf hl
    obtain ⟨g, _, _, hg, _⟩ := hfull (Or.inl hne)
    obtain ⟨_, hg2⟩ := parseBound_eq_some min_likes g hg
    obtain ⟨n, hn, _⟩ := hg2 hne
    exact ⟨n, hn⟩

/-- Witness for C10 at the bound `"abc"`: no query body is constructed. -/
theorem search_posts_invalid_bound_witness :
    search_posts "x" "abc" "" "" "" 10 = Option.none :=
  (search_posts_invalid_bound "x" "abc" "" "" "" 10).1 (by decide) (by decide)

/-- C6: for every reference id and result count, `find_similar` builds a
more-like-this query on `status_message` with both minimum-frequency
thresholds exactly 1, result size `k`, the reference document as the like
target, and no score threshold. -/
theorem find_similar_spec (post_id : String) (k : Nat) :
    (find_similar post_id k).min_term_freq = 1 ∧
    (find_similar post_id k).min_doc_freq = 1 ∧
    (find_similar post_id k).size = k ∧
    (find_similar post_id k).fields = ["status_message"] ∧
    (find_similar post_id k).like = [(index_name, post_id)] ∧
    (find_similar post_id k).min_score = Option.none :=
  ⟨rfl, rfl, rfl, rfl, rfl, rfl⟩

/-- Running the staged delete actions with 404 ignored never fails and
removes exactly the listed ids from the index. -/
theorem runBulkDelete_deletes (ids : List String) (docs : Finset String) :
    runBulkDelete docs (delete_actions ids) [404] =
      Except.ok (docs.filter (fun d => d ∉ ids)) := by
  induction ids generalizing docs with
  | nil =>
      simp [runBulkDelete, delete_actions]
  | cons pid rest ih =>
      show runBulkDelete docs
        ({ op_type := "delete", index := index_name, id := pid } ::
          delete_actions rest) [404] = _
      rw [runBulkDelete]
      by_cases hp : pid ∈ docs
      · rw [if_pos hp, ih]
        congr 1
        ext d
        simp only [Finset.mem_filter, Finset.mem_erase, List.mem_cons]
        constructor
        · rintro ⟨⟨hd1, hd2⟩, hd3⟩
          exact ⟨hd2, fun hc => hc.elim hd1 hd3⟩
        · rintro ⟨hd1, hd2⟩
          exact ⟨⟨fun hc => hd2 (Or.inl hc), hd1⟩, fun hc => hd2 (Or.inr hc)⟩
      · rw [if_neg hp, if_pos (by simp), ih]
        congr 1
        ext d
        simp only [Finset.mem_filter, List.mem_cons]
        constructor
        · rintro ⟨hd1, hd2⟩
          refine ⟨hd1, fun hc => ?_⟩
          rcases hc with hc | hc
          · exact hp (hc ▸ hd1)
          · exact hd2 hc
        · rintro ⟨hd1, hd2⟩
          exact ⟨hd1, fun hc => hd2 (Or.inr hc)⟩

/-- C7: `delete_posts` stages exactly one delete action per identifier,
submits them in one bulk call in which a 404 (already-gone id) counts as
success — so the call always succeeds and removes exactly the listed ids —
and forces a refresh afterwards. -/
theorem delete_posts_spec (ids : List String) (docs : Finset String) :
    (delete_actions ids).length = ids.length ∧
    (∀ a ∈ delete_actions ids, a.op_type = "delete" ∧ a.index = index_name) ∧
    (delete_actions ids).map BulkAction.id = ids ∧
    delete_posts ids docs =
      Except.ok (docs.filter (fun d => d ∉ ids), true) := by
  refine ⟨by simp [delete_actions], ?_, ?_, ?_⟩
  · intro a ha
    simp only [delete_actions, List.mem_map] at ha
    obtain ⟨pid, _, hpe⟩ := ha
    rw [← hpe]
    exact ⟨rfl, rfl⟩
  · rw [delete_actions, List.map_map,
      show (BulkAction.id ∘ fun pid =>
        ({ op_type := "delete", index := index_name, id := pid } : BulkAction)) =
          id from rfl,
      List.map_id]
  · unfold delete_posts
    rw [runBulkDelete_deletes]

/-- Witness for C7: deleting ids `a` and `b` from an index holding `a` and
`c` succeeds, leaves `c`, and refreshes. -/
theorem delete_posts_spec_witness :
    delete_posts ["a", "b"] ({"a", "c"} : Finset String) =
      Except.ok (({"c"} : Finset String), true) := by
  have h := (delete_posts_spec ["a", "b"] ({"a", "c"} : Finset String)).2.2.2
  rw [h, show ({"a", "c"} : Finset String).filter
      (fun d => d ∉ ["a", "b"]) = ({"c"} : Finset String) from by decide]

/-- C8: when the CSV path does not resolve or the tabular parse fails,
`import_posts` shows an error dialog and aborts: nothing is submitted to the
index, no refresh is issued, and no success count is reported. -/
theorem import_posts_aborts (fileExists : Bool) (parsed : Except String (List Row))
    (h : fileExists = false ∨ ∃ e, parsed = Except.error e) :
    (∃ t m, (import_posts fileExists parsed).message = UIMessage.error t m) ∧
    (import_posts fileExists parsed).submitted = [] ∧
    (import_posts fileExists parsed).refreshed = false := by
  rcases h with h | ⟨e, h⟩
  · subst h
    exact ⟨⟨"Error", "CSV file not found", rfl⟩, rfl, rfl⟩
  · subst h
    cases fileExists with
    | false => exact ⟨⟨"Error", "CSV file not found", rfl⟩, rfl, rfl⟩
    | true => exact ⟨⟨"Error", "Cannot read CSV:\n" ++ e, rfl⟩, rfl, rfl⟩

/-- Witness for C8 at a missing file (with a parse that would have
succeeded). -/
theorem import_posts_aborts_witness :
    (∃ t m, (import_posts false (Except.ok ([] : List Row))).message =
      UIMessage.error t m) ∧
    (import_posts false (Except.ok ([] : List Row))).submitted = [] ∧
    (import_posts false (Except.ok ([] : List Row))).refreshed = false :=
  import_posts_aborts false (Except.ok []) (Or.inl rfl)

/-- C9 counterexample: for a hit with no highlight and a 301-character raw
field value, `run_search` renders the full value, which differs from the
300-character truncation the claim's "truncated form" fallback requires. -/
theorem searchRow_untruncated_counterexample :
    searchRow { id := "1", score := 1, highlight := Option.none,
                source_message := some longMsg } =
      some (1, longMsg) ∧
    longMsg ≠ String.mk (longMsg.data.take 300) := by
  constructor
  · have hr : round2 1 = 1 := by decide
    simp [searchRow, hr]
  · intro hq
    have h1 : longMsg.data.length = (String.mk (longMsg.data.take 300)).data.length := by
      rw [← hq]
    have h2 : longMsg.data.length = 301 := by
      rw [show longMsg.data = List.replicate 301 'a' from rfl, List.length_replicate]
    have h3 : (String.mk (longMsg.data.take 300)).data.length = 300 := by
      show (longMsg.data.take 300).length = 300
      rw [show longMsg.data = List.replicate 301 'a' from rfl, List.take_replicate,
        List.length_replicate]
      omega
    omega

/-- C9 amended: `run_search` renders the first highlighted snippet when the
hit carries one, and otherwise the raw field value in full (no truncation);
`similar_posts` always renders the raw field value truncated to 300
characters; both show the score rounded to two decimals, one row per hit. -/
theorem render_rows_amended (hit : Hit) (s : String) (rest : List String) :
    (hit.highlight = some (s :: rest) →
      searchRow hit = some (round2 hit.score, s)) ∧
    (hit.highlight = Option.none →
      searchRow hit = some (round2 hit.score, hit.source_message.getD "")) ∧
    similarRow hit =
      (round2 hit.score, String.mk ((hit.source_message.getD "").data.take 300)) ∧
    (∀ hits : List Hit, ∀ rows : List (ℚ × String),
      hits.mapM searchRow = some rows → rows.length = hits.length) := by
  refine ⟨?_, ?_, rfl, ?_⟩
  · intro hh
    rw [searchRow, hh]
    rfl
  · intro hh
    rw [searchRow, hh]
    rfl
  · intro hits
    induction hits with
    | nil =>
        intro rows hr
        simp only [List.mapM_nil, pure] at hr
        cases hr
        rfl
    | cons hd tl ih =>
        intro rows hr
        rw [List.mapM_cons] at hr
        cases hx : searchRow hd with
        | none => rw [hx] at hr; cases hr
        | some x =>
            rw [hx] at hr
            cases ht : tl.mapM searchRow with
            | none => rw [ht] at hr; cases hr
            | some xs =>
                rw [ht] at hr
                have hxr : x :: xs = rows := by
                  simpa [Option.bind, pure] using hr
                rw [← hxr]
                simp [ih xs ht]

/-- Witness for C9 amended: a highlighted hit shows its first snippet, and a
hit without highlight shows the full raw value. -/
theorem render_rows_amended_witness :
    searchRow { id := "1", score := 3 / 2, highlight := some ["snip"],
                source_message := some "full" } =
      some (round2 (3 / 2), "snip") ∧
    searchRow { id := "2", score := 1, highlight := Option.none,
                source_message := some "raw" } =
      some (round2 1, "raw") :=
  ⟨(render_rows_amended
      { id := "1", score := 3 / 2, highlight := some ["snip"],
        source_message := some "full" } "snip" []).1 rfl,
   (render_rows_amended
      { id := "2", score := 1, highlight := Option.none,
        source_message := some "raw" } "x" []).2.1 rfl⟩
